import Mathlib

/-!
Verification development for the kyfoo semantic front-end
(name resolution / overload resolution / template instantiation).

The definitions below are a shallow embedding of the C++ sources:
  src/src/ast/Expressions.cpp   (Context, expression variants, resolveSymbols)
  src/src/ast/Symbol.cpp        (Symbol, SymbolSet, findEquivalent, findValue, instantiate)
  src/src/ast/Scopes.cpp        (DeclarationScope, findSymbol, createSymbolSet)
  src/src/ast/Semantics.cpp     (matching relations)
Declarations are referenced by numeric ids; non-owning pointers become
Option Nat.  Pieces of the repository that are not present under src/
(the lexer's token kinds, the matchEquivalent/ValueMatcher relations of
Semantics.hpp, the clone machinery) are modelled from the specification
and marked as such in their doc comments.
-/

namespace Kyfoo

/-- Token kinds referenced by the semantic core.  The lexer itself is not
part of src/; the kinds are the ones the sources name plus the ones the
spec's data model lists (Identifier, Integer, FreeVariable, the four
bracket tokens and the Undefined sentinel). -/
inductive TokenKind where
  | undefined
  | identifier
  | integer
  | freeVariable
  | openParen
  | closeParen
  | openBracket
  | closeBracket
deriving DecidableEq, Repr

/-- A token bundles a kind and a lexeme (line/column positions carry no
semantic weight in the resolution core and are omitted). -/
structure Token where
  kind : TokenKind
  lexeme : String
deriving DecidableEq, Repr

/-- TupleKind from Expressions.cpp / toTupleKind. -/
inductive TupleKind where
  | Open
  | Closed
  | OpenLeft
  | OpenRight
deriving DecidableEq, Repr

/-- Expression variants (Expressions.cpp): Primary carries one token and an
optional bound declaration; Tuple a kind, children and its bracket tokens;
Apply an ordered child list and an optional procedure declaration; Symbol an
identifier token, children and an optional declaration; Constraint a subject
and a constraint child. -/
inductive Expr where
  | primary (tok : Token) (decl : Option Nat)
  | tuple (kind : TupleKind) (exprs : List Expr) (openTok closeTok : Token)
  | apply (exprs : List Expr) (decl : Option Nat)
  | symbolE (ident : Token) (exprs : List Expr) (decl : Option Nat)
  | constraintE (subject constraintPart : Expr)
deriving Repr

mutual

/-- Number of expression nodes in an expression tree. -/
def nodeCount : Expr → Nat
  | .primary _ _ => 1
  | .tuple _ es _ _ => 1 + nodeCountL es
  | .apply es _ => 1 + nodeCountL es
  | .symbolE _ es _ => 1 + nodeCountL es
  | .constraintE a b => 1 + nodeCount a + nodeCount b

/-- Number of expression nodes in a list of expression trees. -/
def nodeCountL : List Expr → Nat
  | [] => 0
  | e :: es => nodeCount e + nodeCountL es

end


/-- Non-fatal diagnostics the resolution core can report (Diagnostics sink,
append-only).  Each constructor corresponds to one `ctx.error(...)` or
`dgn.error(...)` site in the sources. -/
inductive Err where
  | undeclaredIdentifier (lexeme : String)
  | implicitApplyNeedsIdentifier
  | noMatchingOverload
  | symbolTupleNeedsIdentifier
  | doesNotIdentifyDeclaration (lexeme : String)
  | undeclaredSymbolIdentifier
  | symbolRedefinition (prior later : Nat)
deriving DecidableEq, Repr

/-- Fatal conditions: `throw std::runtime_error(...)` sites that abort the
traversal instead of reporting through the diagnostics sink. -/
inductive Fatal where
  | unboundFreeVariable
  | freeVariableRebound
deriving DecidableEq, Repr

/-- Diagnostics state: the ordered list of reported (non-fatal) errors. -/
abbrev St := List Err

/-- LookupHit (Scopes.hpp): a found declaration plus whether any symbol set
was recorded in the trace (`hit.symSet()` null-checks only). -/
structure LookupHit where
  hasSymSet : Bool
  decl : Option Nat
deriving DecidableEq, Repr

/-- Resolver interface as Context sees it (Context::matchEquivalent /
matchValue / matchProcedure forward to the IResolver; the concrete
ScopeResolver lookups live outside src/).  `isProcDecl` models
`hit.as<ProcedureDeclaration>()`: whether a declaration id denotes a
procedure declaration. -/
structure Env where
  matchEquivalentHit : String → LookupHit
  matchValueHit : String → List Expr → LookupHit
  matchProcedureHit : String → List Expr → LookupHit
  isProcDecl : Nat → Bool

/-- Modelled from the spec: the lexer's isIdentifier (the lexer is not under
src/).  The Apply resolution defers on FreeVariable heads after passing this
test and the spec's error taxonomy reserves ImplicitApplyNeedsIdentifier for
heads that are neither symbols nor identifier primaries, so the predicate
accepts exactly Identifier and FreeVariable. -/
def isIdentifierTok : TokenKind → Bool
  | .identifier => true
  | .freeVariable => true
  | _ => false

mutual

/-- enforceResolution (Expressions.cpp 851-903): one error per identifier
primary that carries no declaration; other variants recurse. -/
def enforce : Expr → List Err
  | .primary tok d =>
    if tok.kind = TokenKind.identifier ∧ d = none then
      [Err.doesNotIdentifyDeclaration tok.lexeme]
    else []
  | .tuple _ es _ _ => enforceL es
  | .apply es _ => enforceL es
  | .symbolE _ es _ => enforceL es
  | .constraintE a b => enforce a ++ enforce b

/-- enforceResolution over a child list. -/
def enforceL : List Expr → List Err
  | [] => []
  | e :: es => enforce e ++ enforceL es

end

/-- ApplyExpression::resolveSymbols after the children have been resolved
(Expressions.cpp 400-456): explicit lookup bailout on a Symbol head, the
identifier check, the single-child rewrite, the FreeVariable deferral, the
matchValue rewrite into a SymbolExpression, and finally the procedure
overload search.  Returns the mutated expression, the optional rewrite
request and the updated diagnostics. -/
def applyAfterChildren (env : Env) (es' : List Expr) (d : Option Nat) (st : St) :
    Expr × Option Expr × St :=
  match es' with
  | [] => (Expr.apply es' d, none, st)
  | front :: args =>
    match front with
    | .symbolE _ _ _ => (Expr.apply es' d, none, st)
    | .primary tok _ =>
      if isIdentifierTok tok.kind = false then
        (Expr.apply es' d, none, st ++ [Err.implicitApplyNeedsIdentifier])
      else if args.isEmpty then
        (Expr.apply es' d, some front, st)
      else if tok.kind = TokenKind.freeVariable then
        (Expr.apply es' d, none, st)
      else
        let symHit := env.matchValueHit tok.lexeme args
        if symHit.decl.isSome then
          (Expr.apply es' d, some (Expr.symbolE tok args none), st)
        else
          let procHit := env.matchProcedureHit tok.lexeme args
          match procHit.decl with
          | some p =>
            if env.isProcDecl p then (Expr.apply es' d, none, st)
            else (Expr.apply es' d, none, st ++ [Err.noMatchingOverload])
          | none => (Expr.apply es' d, none, st ++ [Err.noMatchingOverload])
    | _ => (Expr.apply es' d, none, st ++ [Err.implicitApplyNeedsIdentifier])

/-- SymbolExpression::resolveSymbols after identifier normalisation and child
resolution (Expressions.cpp 551-586): enforceResolution gate, then matchValue
on (identifier, children); miss reports an undeclared symbol identifier. -/
def symbolAfterChildren (env : Env) (ident : Token) (es' : List Expr)
    (d : Option Nat) (st : St) : Expr × Option Expr × St :=
  let enf := enforceL es'
  if enf = [] then
    let hit := env.matchValueHit ident.lexeme es'
    match hit.decl with
    | none => (Expr.symbolE ident es' d, none, st ++ [Err.undeclaredSymbolIdentifier])
    | some dd => (Expr.symbolE ident es' (some dd), none, st)
  else (Expr.symbolE ident es' d, none, st ++ enf)

mutual

/-- Context::resolveExpression (Expressions.cpp 72-80): clear the rewrite
slot, call the expression's resolveSymbols, and while the slot is refilled
move its contents into the slot and re-invoke resolveSymbols.  `fuel` bounds
the number of rewrites the loop may take; the result is none exactly when
the loop would need more rewrites than `fuel`. -/
def resolveExpression (env : Env) (fuel : Nat) (e : Expr) (st : St) :
    Option (Except Fatal (Expr × St)) :=
  match resolveSymbols env fuel e st with
  | none => none
  | some (Except.error f) => some (Except.error f)
  | some (Except.ok (e', none, st')) => some (Except.ok (e', st'))
  | some (Except.ok (_, some r, st')) =>
    if h : fuel = 0 then none
    else resolveExpression env (fuel - 1) r st'
termination_by (fuel, 3 * nodeCount e + 2)
decreasing_by
  all_goals simp_wf
  · exact Prod.Lex.right _ (by omega)
  · exact Prod.Lex.left _ _ (by omega)

/-- Context::resolveExpressions (Expressions.cpp 82-93): resolve each element
in order, draining the rewrite slot per element. -/
def resolveExpressions (env : Env) (fuel : Nat) (es : List Expr) (st : St) :
    Option (Except Fatal (List Expr × St)) :=
  match es with
  | [] => some (Except.ok ([], st))
  | e :: rest =>
    match resolveExpression env fuel e st with
    | none => none
    | some (Except.error f) => some (Except.error f)
    | some (Except.ok (e', st')) =>
      match resolveExpressions env fuel rest st' with
      | none => none
      | some (Except.error f) => some (Except.error f)
      | some (Except.ok (rest', st'')) => some (Except.ok (e' :: rest', st''))
termination_by (fuel, 3 * nodeCountL es + 3)
decreasing_by
  all_goals simp_wf
  all_goals apply Prod.Lex.right
  all_goals simp only [nodeCountL]
  all_goals have h1 : 1 ≤ nodeCount e := by cases e <;> simp [nodeCount] <;> omega
  all_goals omega

/-- Per-variant resolveSymbols dispatch (Expressions.cpp): returns the
mutated expression, the optional rewrite request fed back to the driver, and
the updated diagnostics; a thrown runtime_error becomes Except.error. -/
def resolveSymbols (env : Env) (fuel : Nat) (e : Expr) (st : St) :
    Option (Except Fatal (Expr × Option Expr × St)) :=
  match e with
  | .primary tok d =>
    if tok.kind = TokenKind.freeVariable then
      if d = none then some (Except.error Fatal.unboundFreeVariable)
      else some (Except.ok (Expr.primary tok d, none, st))
    else if tok.kind ≠ TokenKind.identifier then
      some (Except.ok (Expr.primary tok d, none, st))
    else
      let hit := env.matchEquivalentHit tok.lexeme
      match hit.decl with
      | none =>
        some (Except.ok (Expr.primary tok d, none,
          if hit.hasSymSet then st else st ++ [Err.undeclaredIdentifier tok.lexeme]))
      | some dd => some (Except.ok (Expr.primary tok (some dd), none, st))
  | .tuple k es o c =>
    match resolveExpressions env fuel es st with
    | none => none
    | some (Except.error f) => some (Except.error f)
    | some (Except.ok (es', st')) =>
      some (Except.ok (Expr.tuple k es' o c, none, st'))
  | .apply es d =>
    match resolveExpressions env fuel es st with
    | none => none
    | some (Except.error f) => some (Except.error f)
    | some (Except.ok (es', st')) =>
      some (Except.ok (applyAfterChildren env es' d st'))
  | .symbolE ident es d =>
    if ident.kind = TokenKind.undefined then
      match es with
      | [] => some (Except.ok (Expr.symbolE ident es d, none, st))
      | Expr.primary tok pd :: rest =>
        match resolveExpressions env fuel rest st with
        | none => none
        | some (Except.error f) => some (Except.error f)
        | some (Except.ok (es', st')) =>
          some (Except.ok (symbolAfterChildren env tok es' d st'))
      | _ :: _ =>
        some (Except.ok (Expr.symbolE ident es d, none,
          st ++ [Err.symbolTupleNeedsIdentifier]))
    else
      match resolveExpressions env fuel es st with
      | none => none
      | some (Except.error f) => some (Except.error f)
      | some (Except.ok (es', st')) =>
        some (Except.ok (symbolAfterChildren env ident es' d st'))
  | .constraintE a b =>
    match resolveExpression env fuel a st with
    | none => none
    | some (Except.error f) => some (Except.error f)
    | some (Except.ok (a', st')) =>
      match resolveExpression env fuel b st' with
      | none => none
      | some (Except.error f) => some (Except.error f)
      | some (Except.ok (b', st'')) =>
        some (Except.ok (Expr.constraintE a' b', none, st''))
termination_by (fuel, 3 * nodeCount e + 1)
decreasing_by
  all_goals simp_wf
  all_goals apply Prod.Lex.right
  all_goals simp only [nodeCount, nodeCountL]
  all_goals first
    | omega
    | (have h1 : 1 ≤ nodeCount a := by cases a <;> simp [nodeCount] <;> omega
       have h2 : 1 ≤ nodeCount b := by cases b <;> simp [nodeCount] <;> omega
       omega)

end

/-- Concrete resolver environment for witnesses and counterexamples: symbol
lookups always hit declaration 1 (equivalence) or 2 (value), procedure
lookups always miss. -/
def demoEnv : Env :=
  { matchEquivalentHit := fun _ => ⟨true, some 1⟩
    matchValueHit := fun _ _ => ⟨true, some 2⟩
    matchProcedureHit := fun _ _ => ⟨false, none⟩
    isProcDecl := fun _ => false }

/-- Claim C5's wording of the Primary(Identifier) lookup, written out as a
definition so it can be compared with the source: the lookup is performed
with matchValue on a symbol built from the token (whose parameter list is
empty); on a hit decl_ref is set; when no symbol set exists for the name an
UndeclaredIdentifier error is reported and decl_ref stays null. -/
def primaryLookupViaMatchValue (env : Env) (tok : Token) (d : Option Nat) (st : St) :
    Expr × St :=
  let hit := env.matchValueHit tok.lexeme []
  match hit.decl with
  | none =>
    (Expr.primary tok d,
      if hit.hasSymSet then st else st ++ [Err.undeclaredIdentifier tok.lexeme])
  | some dd => (Expr.primary tok (some dd), st)

/-- The amended wording of claim C5: the source performs the identifier
lookup with matchEquivalent (Expressions.cpp line 170); the hit / missing
symbol set behaviour is as the claim states. -/
def primaryLookupViaMatchEquivalent (env : Env) (tok : Token) (d : Option Nat) (st : St) :
    Expr × St :=
  let hit := env.matchEquivalentHit tok.lexeme
  match hit.decl with
  | none =>
    (Expr.primary tok d,
      if hit.hasSymSet then st else st ++ [Err.undeclaredIdentifier tok.lexeme])
  | some dd => (Expr.primary tok (some dd), st)

/-- What the matching relations need to know about a declaration id: whether
it is a SymbolVariable and, if so, its bound expression
(SymbolVariable::boundExpression). -/
inductive DeclInfo where
  | symVar (bound : Option Expr)
  | plain

/-- Finite table of declarations, keyed by id. -/
structure DeclTable where
  decls : List (Nat × DeclInfo)

/-- Look a declaration id up in the table. -/
def lookupDecl (t : DeclTable) (id : Nat) : Option DeclInfo :=
  (t.decls.find? (fun p => p.1 == id)).map (fun p => p.2)

/-- Whether a declaration id denotes a SymbolVariable
(decl->as<SymbolVariable>() in the sources). -/
def isVarDecl (t : DeclTable) (id : Nat) : Bool :=
  match lookupDecl t id with
  | some (DeclInfo.symVar _) => true
  | _ => false

/-- The declaration() getter of each expression variant: Primary, Apply and
Symbol expressions carry one, Tuple and Constraint do not. -/
def declOf : Expr → Option Nat
  | .primary _ d => d
  | .tuple _ _ _ _ => none
  | .apply _ d => d
  | .symbolE _ _ d => d
  | .constraintE _ _ => none

mutual

/-- Modelled from the spec: relation (a) of §4.3, the equivalence match (the
matchEquivalent overloads of Semantics.hpp are not under src/).  Two
primaries whose declarations are both SymbolVariable are equivalent; two
primaries with identical identifier lexemes are equivalent; tuples are
equivalent iff their kinds and lengths match and children are pairwise
equivalent; two constraints are equivalent iff their subjects are. -/
def matchEquivalentExpr (isVar : Nat → Bool) : Expr → Expr → Bool
  | .primary t1 d1, .primary t2 d2 =>
    (match d1, d2 with
     | some a, some b => isVar a && isVar b
     | _, _ => false) || t1.lexeme == t2.lexeme
  | .tuple k1 es1 _ _, .tuple k2 es2 _ _ =>
    k1 == k2 && matchEquivalentList isVar es1 es2
  | .constraintE a1 _, .constraintE a2 _ => matchEquivalentExpr isVar a1 a2
  | _, _ => false

/-- Relation (a) over expression lists: element-wise, equal lengths. -/
def matchEquivalentList (isVar : Nat → Bool) : List Expr → List Expr → Bool
  | [], [] => true
  | e1 :: r1, e2 :: r2 =>
    matchEquivalentExpr isVar e1 e2 && matchEquivalentList isVar r1 r2
  | _, _ => false

end

/-- ValueMatcher bindings (spec §4.3 relation (c)): left symbol variables
absorb right expressions into leftBindings, right symbol variables absorb
left expressions into rightBindings. -/
structure VM where
  leftBindings : List (Nat × Expr)
  rightBindings : List (Nat × Expr)

/-- Whether an expression is a primary whose declaration is a
SymbolVariable. -/
def isSymVarPrim (isVar : Nat → Bool) : Expr → Bool
  | .primary _ (some d) => isVar d
  | _ => false

/-- The declaration id carried by an expression, defaulting to 0 (only read
where isSymVarPrim guarantees one is present). -/
def varIdOf (e : Expr) : Nat := (declOf e).getD 0

mutual

/-- Modelled from the spec: relation (c) of §4.3, the value match (the
ValueMatcher of Semantics.hpp is not under src/).  A left symbol-variable
primary absorbs the right expression into leftBindings; a right
symbol-variable primary absorbs the left into rightBindings; otherwise
primaries match when their declarations identify the same declaration;
tuples require congruent shapes; a constraint's subject is matched against
the bare opposite side. -/
def matchValueExpr (isVar : Nat → Bool) (l r : Expr) (vm : VM) : Bool × VM :=
  if isSymVarPrim isVar l then
    (true, ⟨vm.leftBindings ++ [(varIdOf l, r)], vm.rightBindings⟩)
  else if isSymVarPrim isVar r then
    (true, ⟨vm.leftBindings, vm.rightBindings ++ [(varIdOf r, l)]⟩)
  else
    match l, r with
    | .primary _ d1, .primary _ d2 =>
      ((match d1, d2 with
        | some a, some b => a == b
        | _, _ => false), vm)
    | .tuple k1 es1 _ _, .tuple k2 es2 _ _ =>
      if k1 == k2 then matchValueList isVar es1 es2 vm else (false, vm)
    | .constraintE a _, rr => matchValueExpr isVar a rr vm
    | ll, .constraintE a _ => matchValueExpr isVar ll a vm
    | _, _ => (false, vm)

/-- Relation (c) over expression lists, threading the bindings. -/
def matchValueList (isVar : Nat → Bool) (ls rs : List Expr) (vm : VM) : Bool × VM :=
  match ls, rs with
  | [], [] => (true, vm)
  | e1 :: r1, e2 :: r2 =>
    let p := matchValueExpr isVar e1 e2 vm
    if p.1 then matchValueList isVar r1 r2 p.2 else (false, p.2)
  | _, _ => (false, vm)

end

/-- A symbol variable: name, declaration id and optional bound expression. -/
structure SymVarM where
  name : String
  id : Nat
  bound : Option Expr

/-- Symbol (Symbol.cpp): identifier token, ordered parameter expressions and
the symbol variables the symbol owns. -/
structure SymbolM where
  identifier : Token
  params : List Expr
  vars : List SymVarM

/-- Symbol copy constructor (Symbol.cpp 33-36): only the identifier is
copied; the parameter and variable lists of the copy start empty.  Copy
assignment (Symbol.cpp 38-42) is copy-and-swap over this constructor and so
has the same effect. -/
def copySymbol (s : SymbolM) : SymbolM := ⟨s.identifier, [], []⟩

/-- Symbol move constructor (Symbol.cpp 44-49): transfers identifier,
parameters and variables. -/
def moveSymbol (s : SymbolM) : SymbolM := ⟨s.identifier, s.params, s.vars⟩

/-- Symbol::operator== (Symbol.cpp 91-94): names equal and parameter lists
equivalent under relation (a). -/
def symbolEq (isVar : Nat → Bool) (a b : SymbolM) : Bool :=
  a.identifier.lexeme == b.identifier.lexeme &&
    matchEquivalentList isVar a.params b.params

/-- Modelled from the spec: resolveIndirections (not under src/) follows the
chain of symbol-variable declarations to the ultimately bound expression
(§4.2: a binding resolves through indirection chains).  The fuel bounds the
chain length; one step per table entry suffices on acyclic tables. -/
def resolveIndirections (t : DeclTable) : Nat → Option Expr → Option Expr
  | 0, e => e
  | _ + 1, none => none
  | n + 1, some e =>
    match declOf e with
    | some d =>
      match lookupDecl t d with
      | some (DeclInfo.symVar (some b)) => resolveIndirections t n (some b)
      | _ => some e
    | none => some e

/-- Symbol::isConcrete (Symbol.cpp 111-124): every variable's binding must
resolve through indirections to an expression with a non-null declaration
which, if it is itself a symbol variable, must be bound. -/
def isConcrete (t : DeclTable) (s : SymbolM) : Bool :=
  s.vars.all fun v =>
    match resolveIndirections t (t.decls.length + 1) v.bound with
    | none => false
    | some e =>
      match declOf e with
      | none => false
      | some d =>
        match lookupDecl t d with
        | some (DeclInfo.symVar b) => b.isSome
        | _ => true

/-- SymbolTemplate (used by Symbol.cpp): the prototype's parameter pattern,
its declaration id, the declaration's symbol (consulted by isConcrete), the
binding sets recorded for instantiations and the instantiated declaration
ids. -/
structure SymbolTemplate where
  paramlist : List Expr
  declaration : Nat
  sym : SymbolM
  instanceBindings : List (List (Nat × Expr))
  instantiations : List Nat

/-- Symbol-set state as findValue/instantiate mutate it: the prototypes, the
owning scope's appended instance declarations, and a counter handing out
fresh declaration ids for clones (the ast::clone machinery is not under
src/; cloning a prototype is modelled as allocating a fresh declaration
id). -/
structure SetSt where
  templates : List SymbolTemplate
  scopeDecls : List Nat
  nextId : Nat

/-- SymbolSet::append (Symbol.cpp 283-294): push a prototype with the given
parameter pattern and declaration. -/
def appendTemplate (st : SetSt) (paramlist : List Expr) (declaration : Nat)
    (sym : SymbolM) : SetSt :=
  { st with templates := st.templates ++ [⟨paramlist, declaration, sym, [], []⟩] }

/-- SymbolSet::findEquivalent (Symbol.cpp 296-309): linear scan under
relation (a), first hit wins. -/
def findEquivalent (isVar : Nat → Bool) (templates : List SymbolTemplate)
    (paramlist : List Expr) : Option Nat :=
  match templates with
  | [] => none
  | e :: rest =>
    if matchEquivalentList isVar e.paramlist paramlist then some e.declaration
    else findEquivalent isVar rest paramlist

/-- Element-wise equivalence of two binding sets (the while loop of
Symbol.cpp 349-358 compares the bound expressions pairwise under relation
(a)). -/
def bindingsEquivalent (isVar : Nat → Bool) :
    List (Nat × Expr) → List (Nat × Expr) → Bool
  | [], [] => true
  | a :: as_, b :: bs => matchEquivalentExpr isVar a.2 b.2 &&
      bindingsEquivalent isVar as_ bs
  | _, _ => false

/-- The cache scan of SymbolSet::instantiate (Symbol.cpp 343-362): walk the
recorded instanceBindings; a candidate entry hits when it has the binding
set's size and is element-wise equivalent to it.  On a hit the source reads
proto.instantiations[index] where index is the count of bindings compared in
the entry (the entry's length), an out-of-bounds read whenever fewer
instantiations than that exist — modelled by get?. -/
def cacheScan (isVar : Nat → Bool) (instBindings : List (List (Nat × Expr)))
    (instantiations : List Nat) (bindingSet : List (Nat × Expr)) :
    Option (Option Nat) :=
  match instBindings with
  | [] => none
  | e :: rest =>
    if e.length == bindingSet.length && bindingsEquivalent isVar e bindingSet then
      some (instantiations.get? e.length)
    else cacheScan isVar rest instantiations bindingSet

/-- SymbolSet::instantiate (Symbol.cpp 338-378): use a cached instantiation
when the scan hits; otherwise clone the prototype (fresh declaration id),
bind its variables and resolve it (effects on the clone are internal to the
missing clone machinery), push the clone on the prototype's instantiations
and append it to the owning scope.  Note the source never appends to
instanceBindings. -/
def instantiate (t : DeclTable) (st : SetSt) (protoIdx : Nat)
    (bindingSet : List (Nat × Expr)) : (Option Nat × Option Nat) × SetSt :=
  match st.templates.get? protoIdx with
  | none => ((none, none), st)
  | some proto =>
    match cacheScan (isVarDecl t) proto.instanceBindings proto.instantiations
        bindingSet with
    | some cached => ((some proto.declaration, cached), st)
    | none =>
      let inst := st.nextId
      ((some proto.declaration, some inst),
       { templates := st.templates.set protoIdx
           { proto with instantiations := proto.instantiations ++ [inst] },
         scopeDecls := st.scopeDecls ++ [inst],
         nextId := st.nextId + 1 })

/-- The scan of SymbolSet::findValue (Symbol.cpp 311-329) over the remaining
(index, prototype) pairs: first value match wins; a concrete prototype
returns a null instance; a match with rightBindings returns a null instance;
otherwise instantiate with the leftBindings. -/
def findValueAux (t : DeclTable) (st : SetSt) (paramlist : List Expr) :
    List (Nat × SymbolTemplate) → (Option Nat × Option Nat) × SetSt
  | [] => ((none, none), st)
  | (idx, e) :: rest =>
    let p := matchValueList (isVarDecl t) e.paramlist paramlist ⟨[], []⟩
    if p.1 then
      if isConcrete t e.sym then ((some e.declaration, none), st)
      else if p.2.rightBindings.isEmpty then instantiate t st idx p.2.leftBindings
      else ((some e.declaration, none), st)
    else findValueAux t st paramlist rest

/-- SymbolSet::findValue (Symbol.cpp 311-329). -/
def findValue (t : DeclTable) (st : SetSt) (paramlist : List Expr) :
    (Option Nat × Option Nat) × SetSt :=
  findValueAux t st paramlist st.templates.enum

/-- std::lower_bound over the name-sorted symbol-set list (Scopes.cpp 90 and
99; createSymbolSet's insertions keep the list sorted, and the ordering
compares set names per the spec's "symbol sets (ordered by name)"): the
index of the first entry whose name is not less than the key. -/
def lowerBound (names : List String) (key : String) : Nat :=
  match names with
  | [] => 0
  | n :: rest => if n < key then lowerBound rest key + 1 else 0

/-- DeclarationScope::findSymbol (Scopes.cpp 88-95): the source dereferences
the lower_bound position unconditionally (l->name() == name); when that
position is end() — the queried name sorts after every set name, including
the empty list — the read is out of bounds, modelled as none.  In bounds,
the result is some (some index) on a name match and some none otherwise. -/
def findSymbol (names : List String) (key : String) : Option (Option Nat) :=
  match names.get? (lowerBound names key) with
  | none => none
  | some n => if n == key then some (some (lowerBound names key)) else some none

/-- DeclarationScope::createSymbolSet (Scopes.cpp 97-105): the same
lower_bound, guarded with an end() check; a missing set is inserted at the
position, keeping the list sorted.  Returns the updated list and the
position of the set for the name. -/
def createSymbolSet (names : List String) (key : String) : List String × Nat :=
  match names.get? (lowerBound names key) with
  | some n =>
    if n == key then (names, lowerBound names key)
    else (names.take (lowerBound names key) ++ [key] ++
      names.drop (lowerBound names key), lowerBound names key)
  | none => (names.take (lowerBound names key) ++ [key] ++
      names.drop (lowerBound names key), lowerBound names key)

/-- A named symbol set owned by a scope. -/
structure ScopeSet where
  name : String
  templates : List SymbolTemplate

/-- createSymbolSet over a scope's set list (Scopes.cpp 97-105), returning
the updated list and the index of the set for the name. -/
def createScopeSet (sets : List ScopeSet) (key : String) : List ScopeSet × Nat :=
  match (sets.map (fun s => s.name)).get? (lowerBound (sets.map (fun s => s.name)) key) with
  | some n =>
    if n == key then (sets, lowerBound (sets.map (fun s => s.name)) key)
    else (sets.take (lowerBound (sets.map (fun s => s.name)) key) ++ [⟨key, []⟩] ++
      sets.drop (lowerBound (sets.map (fun s => s.name)) key),
      lowerBound (sets.map (fun s => s.name)) key)
  | none => (sets.take (lowerBound (sets.map (fun s => s.name)) key) ++ [⟨key, []⟩] ++
      sets.drop (lowerBound (sets.map (fun s => s.name)) key),
      lowerBound (sets.map (fun s => s.name)) key)

mutual

/-- Modelled from the spec: the free-variable pass of Symbol::resolveSymbols
(Symbol.cpp 139-148; gatherFreeVariables is not under src/): walk a
parameter and, at each FreeVariable primary, create a symbol variable for
its lexeme — reusing an existing variable on a name collision
(createVariable, Symbol.cpp 184-191) — and bind the primary's declaration
to it; setFreeVariable (Expressions.cpp 190-196) throws when the primary is
already bound. -/
def bindFreeVars (vars : List SymVarM) (nextId : Nat) :
    Expr → Except Fatal (Expr × List SymVarM × Nat)
  | .primary tok d =>
    if tok.kind = TokenKind.freeVariable then
      match d with
      | some _ => Except.error Fatal.freeVariableRebound
      | none =>
        match vars.find? (fun v => v.name == tok.lexeme) with
        | some v => Except.ok (Expr.primary tok (some v.id), vars, nextId)
        | none =>
          Except.ok (Expr.primary tok (some nextId),
            vars ++ [⟨tok.lexeme, nextId, none⟩], nextId + 1)
    else Except.ok (Expr.primary tok d, vars, nextId)
  | .tuple k es o c =>
    match bindFreeVarsL vars nextId es with
    | Except.error f => Except.error f
    | Except.ok (es', v', n') => Except.ok (Expr.tuple k es' o c, v', n')
  | .apply es d =>
    match bindFreeVarsL vars nextId es with
    | Except.error f => Except.error f
    | Except.ok (es', v', n') => Except.ok (Expr.apply es' d, v', n')
  | .symbolE i es d =>
    match bindFreeVarsL vars nextId es with
    | Except.error f => Except.error f
    | Except.ok (es', v', n') => Except.ok (Expr.symbolE i es' d, v', n')
  | .constraintE a b =>
    match bindFreeVars vars nextId a with
    | Except.error f => Except.error f
    | Except.ok (a', v', n') =>
      match bindFreeVars v' n' b with
      | Except.error f => Except.error f
      | Except.ok (b', v'', n'') => Except.ok (Expr.constraintE a' b', v'', n'')

/-- The free-variable pass over a parameter list, threading the variable
list and the fresh-id counter. -/
def bindFreeVarsL (vars : List SymVarM) (nextId : Nat) :
    List Expr → Except Fatal (List Expr × List SymVarM × Nat)
  | [] => Except.ok ([], vars, nextId)
  | e :: es =>
    match bindFreeVars vars nextId e with
    | Except.error f => Except.error f
    | Except.ok (e', v', n') =>
      match bindFreeVarsL v' n' es with
      | Except.error f => Except.error f
      | Except.ok (es', v'', n'') => Except.ok (e' :: es', v'', n'')

end

/-- Symbol::resolveSymbols (Symbol.cpp 135-151): bind each parameter's free
variables into symbol variables, then resolve all parameters with the
driver; the driver's rewrite budget is the parameters' node count, which
always suffices.  Returns the resolved symbol, the next fresh id and the
diagnostics. -/
def symbolResolve (env : Env) (s : SymbolM) (nextId : Nat) (st : St) :
    Option (Except Fatal (SymbolM × Nat × St)) :=
  match bindFreeVarsL s.vars nextId s.params with
  | Except.error f => some (Except.error f)
  | Except.ok (params', vars', n') =>
    match resolveExpressions env (nodeCountL params') params' st with
    | none => none
    | some (Except.error f) => some (Except.error f)
    | some (Except.ok (params'', st')) =>
      some (Except.ok (⟨s.identifier, params'', vars'⟩, n', st'))

/-- A declaration as the scan of DeclarationScope::resolveSymbols consumes
it: id and symbol.  (The scan defers procedure bodies to after the loop;
the declarations modelled here carry no bodies.) -/
structure DeclM where
  declId : Nat
  sym : SymbolM

/-- DeclarationScope::resolveSymbols (Scopes.cpp 46-68) over the
declarations in order: resolve the declaration's symbol (extending the
declaration table with the created symbol variables), create or reuse the
symbol set for its name, and check findEquivalent; a prior equivalent
declaration yields one SymbolRedefinition error citing the prior and the new
declaration and the append is skipped; otherwise the prototype is
appended. -/
def scopeResolveSymbols (env : Env) :
    DeclTable → List DeclM → List ScopeSet → Nat → St →
      Option (Except Fatal (List ScopeSet × DeclTable × Nat × St))
  | t, [], sets, nextId, st => some (Except.ok (sets, t, nextId, st))
  | t, d :: rest, sets, nextId, st =>
    match symbolResolve env d.sym nextId st with
    | none => none
    | some (Except.error f) => some (Except.error f)
    | some (Except.ok (sym', n', st')) =>
      let t' : DeclTable :=
        ⟨t.decls ++ (sym'.vars.drop d.sym.vars.length).map
          (fun v => (v.id, DeclInfo.symVar v.bound))⟩
      let cs := createScopeSet sets sym'.identifier.lexeme
      match cs.1.get? cs.2 with
      | none => scopeResolveSymbols env t' rest cs.1 n' st'
      | some s =>
        match findEquivalent (isVarDecl t') s.templates sym'.params with
        | some other =>
          scopeResolveSymbols env t' rest cs.1 n'
            (st' ++ [Err.symbolRedefinition other d.declId])
        | none =>
          scopeResolveSymbols env t' rest
            (cs.1.set cs.2 { s with templates := s.templates ++
              [⟨sym'.params, d.declId, sym', [], []⟩] }) n' st'

/-- Number of SymbolRedefinition diagnostics in the sink. -/
def countRedef (st : St) : Nat :=
  (st.filter fun e =>
    match e with
    | Err.symbolRedefinition _ _ => true
    | _ => false).length

/-- Modelled from the spec: the resolver-level matchValue wraps findValue's
TemplateInstance in a LookupHit (DeclarationScope::findValue and
ScopeResolver::matchValue are not under src/); per scenario S3 the created
instance is bound when instantiation happened, else the prototype
declaration. -/
def hitOfTemplateInstance (ti : Option Nat × Option Nat) : LookupHit :=
  ⟨true, match ti.2 with
         | some i => some i
         | none => ti.1⟩

/-- A one-set resolver environment (declaration table, set state, set name):
equivalence lookups delegate to findEquivalent with the empty parameter
list a bare identifier carries, value lookups to findValue; procedure
lookups never match. -/
def envOfSet (t : DeclTable) (st : SetSt) (name : String) : Env :=
  { matchEquivalentHit := fun n =>
      if n == name then ⟨true, findEquivalent (isVarDecl t) st.templates []⟩
      else ⟨false, none⟩
    matchValueHit := fun n params =>
      if n == name then hitOfTemplateInstance (findValue t st params).1
      else ⟨false, none⟩
    matchProcedureHit := fun _ _ => ⟨false, none⟩
    isProcDecl := fun _ => false }

/-- Fixture table for the symbol-set claims: declaration 1 is a plain data
declaration, declaration 2 an unbound symbol variable. -/
def tableFx : DeclTable := ⟨[(1, DeclInfo.plain), (2, DeclInfo.symVar none)]⟩

/-- Fixture prototype symbol owning one unbound variable, hence not
concrete. -/
def symFx : SymbolM := ⟨⟨TokenKind.identifier, "f"⟩, [], [⟨"T", 2, none⟩]⟩

/-- C3 fixture set: one non-concrete prototype whose parameter pattern is
the symbol-variable primary T; clone ids start at 100. -/
def stFxC3 : SetSt :=
  ⟨[⟨[Expr.primary ⟨TokenKind.freeVariable, "T"⟩ (some 2)], 10, symFx, [], []⟩],
   [], 100⟩

/-- C4 fixture set: one non-concrete prototype whose parameter pattern is a
primary bound to the plain declaration 1. -/
def stFxC4 : SetSt :=
  ⟨[⟨[Expr.primary ⟨TokenKind.identifier, "a"⟩ (some 1)], 10, symFx, [], []⟩],
   [], 100⟩

/-- C5 fixture set: one non-concrete prototype with an empty parameter
pattern; clone ids start at 11. -/
def stFxC5 : SetSt := ⟨[⟨[], 10, symFx, [], []⟩], [], 11⟩

/-- Fixture symbol for the redefinition witness: name w, no parameters and
no variables. -/
def symW : SymbolM := ⟨⟨TokenKind.identifier, "w"⟩, [], []⟩

theorem nodeCount_pos (e : Expr) : 1 ≤ nodeCount e := by
  cases e <;> simp [nodeCount] <;> omega

theorem nodeCountL_cons (e : Expr) (es : List Expr) :
    nodeCountL (e :: es) = nodeCount e + nodeCountL es := rfl

theorem applyAfterChildren_size (env : Env) (es' : List Expr) (d : Option Nat) (st : St) :
    nodeCount (applyAfterChildren env es' d st).1 = 1 + nodeCountL es' ∧
    (∀ r, (applyAfterChildren env es' d st).2.1 = some r → nodeCount r ≤ nodeCountL es') := by
  unfold applyAfterChildren
  cases es' with
  | nil => simp [nodeCount, nodeCountL]
  | cons front args =>
    cases front with
    | primary tok pd =>
      simp only [nodeCount, nodeCountL]
      split_ifs with h1 h2 h3 h4
      · simp [nodeCount, nodeCountL]
      · constructor
        · simp [nodeCount, nodeCountL]
        · intro r hr
          simp only [Option.some.injEq] at hr
          subst hr
          simp [nodeCount, nodeCountL]
      · simp [nodeCount, nodeCountL]
      · constructor
        · simp [nodeCount, nodeCountL]
        · intro r hr
          simp only [Option.some.injEq] at hr
          subst hr
          simp [nodeCount, nodeCountL]
      · split <;> first
          | simp [nodeCount, nodeCountL]
          | (split <;> simp [nodeCount, nodeCountL])
    | tuple k es o c => simp [nodeCount, nodeCountL]
    | apply es dd => simp [nodeCount, nodeCountL]
    | symbolE i es dd => simp [nodeCount, nodeCountL]
    | constraintE a b => simp [nodeCount, nodeCountL]

theorem symbolAfterChildren_size (env : Env) (ident : Token) (es' : List Expr)
    (d : Option Nat) (st : St) :
    nodeCount (symbolAfterChildren env ident es' d st).1 = 1 + nodeCountL es' ∧
    (symbolAfterChildren env ident es' d st).2.1 = none := by
  unfold symbolAfterChildren
  dsimp only
  split_ifs with h1
  · split <;> simp [nodeCount]
  · simp [nodeCount]

set_option maxHeartbeats 1600000 in
theorem resolve_sizes (env : Env) :
    (∀ fuel e st e' st',
        resolveExpression env fuel e st = some (Except.ok (e', st')) →
          nodeCount e' ≤ nodeCount e) ∧
    (∀ fuel e st e' req st',
        resolveSymbols env fuel e st = some (Except.ok (e', req, st')) →
          nodeCount e' ≤ nodeCount e ∧
          ∀ r, req = some r → nodeCount r < nodeCount e) ∧
    (∀ fuel es st es' st',
        resolveExpressions env fuel es st = some (Except.ok (es', st')) →
          nodeCountL es' ≤ nodeCountL es) := by
  apply resolveExpression.mutual_induct env
    (fun fuel e st => ∀ e' st',
        resolveExpression env fuel e st = some (Except.ok (e', st')) →
          nodeCount e' ≤ nodeCount e)
    (fun fuel e st => ∀ e' req st',
        resolveSymbols env fuel e st = some (Except.ok (e', req, st')) →
          nodeCount e' ≤ nodeCount e ∧
          ∀ r, req = some r → nodeCount r < nodeCount e)
    (fun fuel es st => ∀ es' st',
        resolveExpressions env fuel es st = some (Except.ok (es', st')) →
          nodeCountL es' ≤ nodeCountL es)
  case case1 =>
    intro fuel e st hn _ e' st' hres
    rw [resolveExpression.eq_def, hn] at hres
    simp at hres
  case case2 =>
    intro fuel e st f hf _ e' st' hres
    rw [resolveExpression.eq_def, hf] at hres
    simp at hres
  case case3 =>
    intro fuel e st e1 st1 hok ih e' st' hres
    rw [resolveExpression.eq_def, hok] at hres
    simp only [Option.some.injEq, Except.ok.injEq, Prod.mk.injEq] at hres
    obtain ⟨h1, _⟩ := hres
    subst h1
    exact (ih e1 none st1 hok).1
  case case4 =>
    intro e st fst r st1 hok _ e' st' hres
    rw [resolveExpression.eq_def, hok] at hres
    simp at hres
  case case5 =>
    intro fuel e st fst r st1 hok hfz ihS ihE e' st' hres
    rw [resolveExpression.eq_def, hok] at hres
    simp only [dif_neg hfz] at hres
    have h1 := ihE e' st' hres
    have h2 := (ihS fst (some r) st1 hok).2 r rfl
    omega
  case case6 =>
    intro fuel st tok hk e' req st' hres
    rw [resolveSymbols.eq_def] at hres
    simp [hk] at hres
  case case7 =>
    intro fuel st tok d hk hd e' req st' hres
    rw [resolveSymbols.eq_def] at hres
    simp [hk, hd] at hres
    obtain ⟨h1, h2, h3⟩ := hres
    subst h1; subst h2
    simp [nodeCount]
  case case8 =>
    intro fuel st tok d h1 h2 e' req st' hres
    rw [resolveSymbols.eq_def] at hres
    simp [h1, h2] at hres
    obtain ⟨h3, h4, h5⟩ := hres
    subst h3; subst h4
    simp [nodeCount]
  case case9 =>
    intro fuel st tok d h1 h2 hit hdecl e' req st' hres
    have hd2 : (env.matchEquivalentHit tok.lexeme).decl = none := hdecl
    rw [resolveSymbols.eq_def] at hres
    simp [h1, h2, hd2] at hres
    obtain ⟨h3, h4, h5⟩ := hres
    subst h3; subst h4
    simp [nodeCount]
  case case10 =>
    intro fuel st tok d h1 h2 hit dd hdecl e' req st' hres
    have hd2 : (env.matchEquivalentHit tok.lexeme).decl = some dd := hdecl
    rw [resolveSymbols.eq_def] at hres
    simp [h1, h2, hd2] at hres
    obtain ⟨h3, h4, h5⟩ := hres
    subst h3; subst h4
    simp [nodeCount]
  case case11 =>
    intro fuel st k es o c hn _ e' req st' hres
    rw [resolveSymbols.eq_def] at hres
    simp [hn] at hres
  case case12 =>
    intro fuel st k es o c f hf _ e' req st' hres
    rw [resolveSymbols.eq_def] at hres
    simp [hf] at hres
  case case13 =>
    intro fuel st k es o c rest' st2 hok ih e' req st' hres
    rw [resolveSymbols.eq_def] at hres
    simp only [hok, Option.some.injEq, Except.ok.injEq, Prod.mk.injEq] at hres
    obtain ⟨h1, h2, h3⟩ := hres
    subst h1; subst h2
    have hL := ih rest' st2 hok
    constructor
    · simp only [nodeCount]; omega
    · intro r hr; simp at hr
  case case14 =>
    intro fuel st es d hn _ e' req st' hres
    rw [resolveSymbols.eq_def] at hres
    simp [hn] at hres
  case case15 =>
    intro fuel st es d f hf _ e' req st' hres
    rw [resolveSymbols.eq_def] at hres
    simp [hf] at hres
  case case16 =>
    intro fuel st es d rest' st2 hok ih e' req st' hres
    rw [resolveSymbols.eq_def] at hres
    simp only [hok, Option.some.injEq, Except.ok.injEq] at hres
    have hsz := applyAfterChildren_size env rest' d st2
    rw [hres] at hsz
    simp only at hsz
    obtain ⟨hs1, hs2⟩ := hsz
    have hL := ih rest' st2 hok
    constructor
    · simp only [nodeCount]; omega
    · intro r hr
      have h2 := hs2 r hr
      simp only [nodeCount]
      omega
  case case17 =>
    intro fuel st tok d hk e' req st' hres
    rw [resolveSymbols.eq_def] at hres
    simp [hk] at hres
    obtain ⟨h1, h2, h3⟩ := hres
    subst h1; subst h2
    simp [nodeCount]
  case case18 =>
    intro fuel st tok d hk tok2 pd rest hn _ e' req st' hres
    rw [resolveSymbols.eq_def] at hres
    simp [hk, hn] at hres
  case case19 =>
    intro fuel st tok d hk tok2 pd rest f hf _ e' req st' hres
    rw [resolveSymbols.eq_def] at hres
    simp [hk, hf] at hres
  case case20 =>
    intro fuel st tok d hk tok2 pd rest rest' st2 hok ih e' req st' hres
    rw [resolveSymbols.eq_def] at hres
    simp only [hk, if_true, reduceIte] at hres
    simp only [hok, Option.some.injEq, Except.ok.injEq] at hres
    have hsz := symbolAfterChildren_size env tok2 rest' d st2
    rw [hres] at hsz
    simp only at hsz
    obtain ⟨hs1, hs2⟩ := hsz
    subst hs2
    have hL := ih rest' st2 hok
    constructor
    · simp only [nodeCount, nodeCountL_cons]; omega
    · intro r hr; simp at hr
  case case21 =>
    intro fuel st tok d hk head tail hne e' req st' hres
    cases head with
    | primary t p => exact absurd rfl (hne t p)
    | tuple k2 es2 o2 c2 =>
      rw [resolveSymbols.eq_def] at hres
      simp [hk] at hres
      obtain ⟨h1, h2, h3⟩ := hres
      subst h1; subst h2
      simp [nodeCount]
    | apply es2 d2 =>
      rw [resolveSymbols.eq_def] at hres
      simp [hk] at hres
      obtain ⟨h1, h2, h3⟩ := hres
      subst h1; subst h2
      simp [nodeCount]
    | symbolE i2 es2 d2 =>
      rw [resolveSymbols.eq_def] at hres
      simp [hk] at hres
      obtain ⟨h1, h2, h3⟩ := hres
      subst h1; subst h2
      simp [nodeCount]
    | constraintE a2 b2 =>
      rw [resolveSymbols.eq_def] at hres
      simp [hk] at hres
      obtain ⟨h1, h2, h3⟩ := hres
      subst h1; subst h2
      simp [nodeCount]
  case case22 =>
    intro fuel st tok es d hk hn _ e' req st' hres
    rw [resolveSymbols.eq_def] at hres
    simp [hk, hn] at hres
  case case23 =>
    intro fuel st tok es d hk f hf _ e' req st' hres
    rw [resolveSymbols.eq_def] at hres
    simp [hk, hf] at hres
  case case24 =>
    intro fuel st tok es d hk rest' st2 hok ih e' req st' hres
    rw [resolveSymbols.eq_def] at hres
    simp only [hk, if_false, reduceIte] at hres
    simp only [hok, Option.some.injEq, Except.ok.injEq] at hres
    have hsz := symbolAfterChildren_size env tok rest' d st2
    rw [hres] at hsz
    simp only at hsz
    obtain ⟨hs1, hs2⟩ := hsz
    subst hs2
    have hL := ih rest' st2 hok
    constructor
    · simp only [nodeCount]; omega
    · intro r hr; simp at hr
  case case25 =>
    intro fuel st a b hn _ e' req st' hres
    rw [resolveSymbols.eq_def] at hres
    simp [hn] at hres
  case case26 =>
    intro fuel st a b f hf _ e' req st' hres
    rw [resolveSymbols.eq_def] at hres
    simp [hf] at hres
  case case27 =>
    intro fuel st a b a1 st1 hoka hnb iha ihb e' req st' hres
    rw [resolveSymbols.eq_def] at hres
    simp [hoka, hnb] at hres
  case case28 =>
    intro fuel st a b a1 st1 hoka f hfb iha ihb e' req st' hres
    rw [resolveSymbols.eq_def] at hres
    simp [hoka, hfb] at hres
  case case29 =>
    intro fuel st a b a1 st1 hoka b1 st2 hokb iha ihb e' req st3 hres
    rw [resolveSymbols.eq_def] at hres
    simp only [hoka, hokb, Option.some.injEq, Except.ok.injEq, Prod.mk.injEq] at hres
    obtain ⟨h1, h2, h3⟩ := hres
    subst h1; subst h2
    have ha := iha a1 st1 hoka
    have hb := ihb b1 st2 hokb
    constructor
    · simp only [nodeCount]; omega
    · intro r hr; simp at hr
  case case30 =>
    intro fuel st es' st' hres
    rw [resolveExpressions.eq_def] at hres
    simp only [Option.some.injEq, Except.ok.injEq, Prod.mk.injEq] at hres
    obtain ⟨h1, h2⟩ := hres
    subst h1
    exact le_refl _
  case case31 =>
    intro fuel st e es hn _ es' st' hres
    rw [resolveExpressions.eq_def] at hres
    simp [hn] at hres
  case case32 =>
    intro fuel st e es f hf _ es' st' hres
    rw [resolveExpressions.eq_def] at hres
    simp [hf] at hres
  case case33 =>
    intro fuel st e es e1 st1 hok hn ih1 ih3 es' st' hres
    rw [resolveExpressions.eq_def] at hres
    simp [hok, hn] at hres
  case case34 =>
    intro fuel st e es e1 st1 hok f hf ih1 ih3 es' st' hres
    rw [resolveExpressions.eq_def] at hres
    simp [hok, hf] at hres
  case case35 =>
    intro fuel st e es e1 st1 hok rest' st2 hokr ih1 ih3 es' st' hres
    rw [resolveExpressions.eq_def] at hres
    simp only [hok, hokr, Option.some.injEq, Except.ok.injEq, Prod.mk.injEq] at hres
    obtain ⟨h1, h2⟩ := hres
    subst h1
    have h3 := ih1 e1 st1 hok
    have h4 := ih3 rest' st2 hokr
    simp only [nodeCountL_cons]
    omega

set_option maxHeartbeats 1600000 in
theorem resolve_fuel_sufficient (env : Env) :
    (∀ fuel e st, nodeCount e ≤ fuel → (resolveExpression env fuel e st).isSome) ∧
    (∀ fuel e st, nodeCount e ≤ fuel + 1 → (resolveSymbols env fuel e st).isSome) ∧
    (∀ fuel es st, nodeCountL es ≤ fuel → (resolveExpressions env fuel es st).isSome) := by
  apply resolveExpression.mutual_induct env
    (fun fuel e st =>
        nodeCount e ≤ fuel → (resolveExpression env fuel e st).isSome)
    (fun fuel e st =>
        nodeCount e ≤ fuel + 1 → (resolveSymbols env fuel e st).isSome)
    (fun fuel es st =>
        nodeCountL es ≤ fuel → (resolveExpressions env fuel es st).isSome)
  case case1 =>
    intro fuel e st hn ihS hb
    have h2 := ihS (by omega)
    rw [hn] at h2
    simp at h2
  case case2 =>
    intro fuel e st f hf ihS hb
    rw [resolveExpression.eq_def, hf]
    simp
  case case3 =>
    intro fuel e st e1 st1 hok ihS hb
    rw [resolveExpression.eq_def, hok]
    simp
  case case4 =>
    intro e st fst r st1 hok ihS hb
    have := nodeCount_pos e
    omega
  case case5 =>
    intro fuel e st fst r st1 hok hfz ihS ihE hb
    rw [resolveExpression.eq_def, hok]
    simp only [dif_neg hfz]
    apply ihE
    have hr := ((resolve_sizes env).2.1 fuel e st fst (some r) st1 hok).2 r rfl
    omega
  case case6 =>
    intro fuel st tok hk hb
    rw [resolveSymbols.eq_def]
    simp [hk]
  case case7 =>
    intro fuel st tok d hk hd hb
    rw [resolveSymbols.eq_def]
    simp [hk, hd]
  case case8 =>
    intro fuel st tok d h1 h2 hb
    rw [resolveSymbols.eq_def]
    simp [h1, h2]
  case case9 =>
    intro fuel st tok d h1 h2 hit hdecl hb
    have hd2 : (env.matchEquivalentHit tok.lexeme).decl = none := hdecl
    rw [resolveSymbols.eq_def]
    simp [h1, h2, hd2]
  case case10 =>
    intro fuel st tok d h1 h2 hit dd hdecl hb
    have hd2 : (env.matchEquivalentHit tok.lexeme).decl = some dd := hdecl
    rw [resolveSymbols.eq_def]
    simp [h1, h2, hd2]
  case case11 =>
    intro fuel st k es o c hn ihL hb
    have h2 := ihL (by simp only [nodeCount] at hb; omega)
    rw [hn] at h2
    simp at h2
  case case12 =>
    intro fuel st k es o c f hf ihL hb
    rw [resolveSymbols.eq_def]
    simp [hf]
  case case13 =>
    intro fuel st k es o c rest' st2 hok ihL hb
    rw [resolveSymbols.eq_def]
    simp [hok]
  case case14 =>
    intro fuel st es d hn ihL hb
    have h2 := ihL (by simp only [nodeCount] at hb; omega)
    rw [hn] at h2
    simp at h2
  case case15 =>
    intro fuel st es d f hf ihL hb
    rw [resolveSymbols.eq_def]
    simp [hf]
  case case16 =>
    intro fuel st es d rest' st2 hok ihL hb
    rw [resolveSymbols.eq_def]
    simp [hok]
  case case17 =>
    intro fuel st tok d hk hb
    rw [resolveSymbols.eq_def]
    simp [hk]
  case case18 =>
    intro fuel st tok d hk tok2 pd rest hn ihL hb
    have h2 := ihL (by simp only [nodeCount, nodeCountL_cons] at hb; have := nodeCount_pos (Expr.primary tok2 pd); omega)
    rw [hn] at h2
    simp at h2
  case case19 =>
    intro fuel st tok d hk tok2 pd rest f hf ihL hb
    rw [resolveSymbols.eq_def]
    simp [hk, hf]
  case case20 =>
    intro fuel st tok d hk tok2 pd rest rest' st2 hok ihL hb
    rw [resolveSymbols.eq_def]
    simp [hk, hok]
  case case21 =>
    intro fuel st tok d hk head tail hne hb
    cases head with
    | primary t p => exact absurd rfl (hne t p)
    | tuple k2 es2 o2 c2 =>
      rw [resolveSymbols.eq_def]
      simp [hk]
    | apply es2 d2 =>
      rw [resolveSymbols.eq_def]
      simp [hk]
    | symbolE i2 es2 d2 =>
      rw [resolveSymbols.eq_def]
      simp [hk]
    | constraintE a2 b2 =>
      rw [resolveSymbols.eq_def]
      simp [hk]
  case case22 =>
    intro fuel st tok es d hk hn ihL hb
    have h2 := ihL (by simp only [nodeCount] at hb; omega)
    rw [hn] at h2
    simp at h2
  case case23 =>
    intro fuel st tok es d hk f hf ihL hb
    rw [resolveSymbols.eq_def]
    simp [hk, hf]
  case case24 =>
    intro fuel st tok es d hk rest' st2 hok ihL hb
    rw [resolveSymbols.eq_def]
    simp [hk, hok]
  case case25 =>
    intro fuel st a b hn ihA hb
    have h2 := ihA (by simp only [nodeCount] at hb; have := nodeCount_pos b; omega)
    rw [hn] at h2
    simp at h2
  case case26 =>
    intro fuel st a b f hf ihA hb
    rw [resolveSymbols.eq_def]
    simp [hf]
  case case27 =>
    intro fuel st a b a1 st1 hoka hnb ihA ihB hb
    have h2 := ihB (by simp only [nodeCount] at hb; have := nodeCount_pos a; omega)
    rw [hnb] at h2
    simp at h2
  case case28 =>
    intro fuel st a b a1 st1 hoka f hfb ihA ihB hb
    rw [resolveSymbols.eq_def]
    simp [hoka, hfb]
  case case29 =>
    intro fuel st a b a1 st1 hoka b1 st2 hokb ihA ihB hb
    rw [resolveSymbols.eq_def]
    simp [hoka, hokb]
  case case30 =>
    intro fuel st hb
    rw [resolveExpressions.eq_def]
    simp
  case case31 =>
    intro fuel st e es hn ihE hb
    have h2 := ihE (by simp only [nodeCountL_cons] at hb; omega)
    rw [hn] at h2
    simp at h2
  case case32 =>
    intro fuel st e es f hf ihE hb
    rw [resolveExpressions.eq_def]
    simp [hf]
  case case33 =>
    intro fuel st e es e1 st1 hok hn ihE ihL hb
    have h2 := ihL (by simp only [nodeCountL_cons] at hb; have := nodeCount_pos e; omega)
    rw [hn] at h2
    simp at h2
  case case34 =>
    intro fuel st e es e1 st1 hok f hf ihE ihL hb
    rw [resolveExpressions.eq_def]
    simp [hok, hf]
  case case35 =>
    intro fuel st e es e1 st1 hok rest' st2 hokr ihE ihL hb
    rw [resolveExpressions.eq_def]
    simp [hok, hokr]

theorem resolveExpressions_length (env : Env) (fuel : Nat) :
    ∀ es st es' st', resolveExpressions env fuel es st = some (Except.ok (es', st')) →
      es'.length = es.length := by
  intro es
  induction es with
  | nil =>
    intro st es' st' h
    rw [resolveExpressions.eq_def] at h
    simp only [Option.some.injEq, Except.ok.injEq, Prod.mk.injEq] at h
    obtain ⟨h1, _⟩ := h
    subst h1
    rfl
  | cons e rest ih =>
    intro st es' st' h
    rw [resolveExpressions.eq_def] at h
    cases hE : resolveExpression env fuel e st with
    | none => simp [hE] at h
    | some r =>
      cases r with
      | error f => simp [hE] at h
      | ok p =>
        obtain ⟨e1, st1⟩ := p
        cases hL : resolveExpressions env fuel rest st1 with
        | none => simp [hE, hL] at h
        | some r2 =>
          cases r2 with
          | error f => simp [hE, hL] at h
          | ok p2 =>
            obtain ⟨rest', st2⟩ := p2
            simp only [hE, hL, Option.some.injEq, Except.ok.injEq, Prod.mk.injEq] at h
            obtain ⟨h1, _⟩ := h
            subst h1
            simp [ih st1 rest' st2 hL]

/-- Claim C1: for every expression, Context::resolveExpression terminates: it
clears the rewrite slot, calls the expression's resolveSymbols and re-invokes
it while the slot is refilled, and the number of loop iterations (rewrites)
is finite and bounded by the expression's node count — giving the loop a
rewrite budget of at least nodeCount e always suffices (the model returns
none exactly when the budget is exhausted, and every rewrite is
strictly size-reducing). -/
theorem C1_resolveExpression_terminates (env : Env) (e : Expr) (st : St) (fuel : Nat)
    (h : nodeCount e ≤ fuel) : (resolveExpression env fuel e st).isSome =  true :=
  (resolve_fuel_sufficient env).1 fuel e st h

/-- Witness for C1: a two-child apply expression (which rewrites into a
symbol expression) resolves within a rewrite budget of its node count. -/
theorem C1_witness :
    nodeCount (Expr.apply [Expr.primary ⟨TokenKind.identifier, "f"⟩ none,
      Expr.primary ⟨TokenKind.identifier, "a"⟩ none] none) ≤ 3 ∧
    (resolveExpression demoEnv 3
      (Expr.apply [Expr.primary ⟨TokenKind.identifier, "f"⟩ none,
        Expr.primary ⟨TokenKind.identifier, "a"⟩ none] none) []).isSome = true :=
  ⟨by decide,
   C1_resolveExpression_terminates demoEnv _ [] 3 (by decide)⟩

/-- Counterexample to claim C2: resolving an Open tuple with zero children
leaves it unchanged — no rewrite to the axioms module's emptyType primary
happens (TupleExpression::resolveSymbols, Expressions.cpp 309-312, only
resolves the children), so a Tuple(Open) with 0 children survives
resolution. -/
theorem C2_counterexample :
    resolveExpression demoEnv 1
      (Expr.tuple TupleKind.Open [] ⟨TokenKind.openParen, "("⟩
        ⟨TokenKind.closeParen, ")"⟩) [] =
    some (Except.ok (Expr.tuple TupleKind.Open [] ⟨TokenKind.openParen, "("⟩
      ⟨TokenKind.closeParen, ")"⟩, [])) := by
  simp [resolveExpression.eq_def, resolveExpressions.eq_def, resolveSymbols.eq_def]

/-- Amended claim C2: TupleExpression::resolveSymbols only resolves its
children: the node keeps its kind, bracket tokens and child count and never
requests a rewrite, so Tuple(Open) nodes with 0 or 1 child survive
resolution unchanged in shape. -/
theorem C2_amended_tuple_resolution_preserves_shape (env : Env) (fuel : Nat)
    (k : TupleKind) (es : List Expr) (o c : Token) (st : St)
    (es' : List Expr) (st' : St)
    (h : resolveExpressions env fuel es st = some (Except.ok (es', st'))) :
    resolveSymbols env fuel (Expr.tuple k es o c) st =
      some (Except.ok (Expr.tuple k es' o c, none, st')) ∧
    es'.length = es.length := by
  constructor
  · rw [resolveSymbols.eq_def]
    simp [h]
  · exact resolveExpressions_length env fuel es st es' st' h

/-- Witness for the amended C2 at the empty Open tuple. -/
theorem C2_witness :
    (resolveSymbols demoEnv 0 (Expr.tuple TupleKind.Open []
        ⟨TokenKind.openParen, "("⟩ ⟨TokenKind.closeParen, ")"⟩) [] =
      some (Except.ok (Expr.tuple TupleKind.Open []
        ⟨TokenKind.openParen, "("⟩ ⟨TokenKind.closeParen, ")"⟩, none, []))) ∧
    List.length ([] : List Expr) = List.length ([] : List Expr) :=
  C2_amended_tuple_resolution_preserves_shape demoEnv 0 TupleKind.Open []
    ⟨TokenKind.openParen, "("⟩ ⟨TokenKind.closeParen, ")"⟩ [] [] []
    (by rw [resolveExpressions.eq_def])

/-- Amended claim C5: for every Primary expression whose token is an
Identifier, resolveSymbols performs the lookup with matchEquivalent on a
symbol built from the token (not matchValue); on a hit it sets decl_ref to
the found declaration, and when no symbol set exists for the name it reports
an UndeclaredIdentifier error and leaves decl_ref null. -/
theorem C5_amended_identifier_lookup_uses_matchEquivalent (env : Env) (fuel : Nat)
    (tok : Token) (d : Option Nat) (st : St) (h : tok.kind = TokenKind.identifier) :
    resolveSymbols env fuel (Expr.primary tok d) st =
      some (Except.ok ((primaryLookupViaMatchEquivalent env tok d st).1, none,
        (primaryLookupViaMatchEquivalent env tok d st).2)) := by
  have hk : ¬ tok.kind = TokenKind.freeVariable := by rw [h]; simp
  rw [resolveSymbols.eq_def]
  unfold primaryLookupViaMatchEquivalent
  cases hd : (env.matchEquivalentHit tok.lexeme).decl <;> simp [h, hk, hd]

/-- Witness for the amended C5 at a concrete identifier primary. -/
theorem C5_witness :
    resolveSymbols demoEnv 0 (Expr.primary ⟨TokenKind.identifier, "x"⟩ none) [] =
      some (Except.ok ((primaryLookupViaMatchEquivalent demoEnv
          ⟨TokenKind.identifier, "x"⟩ none []).1, none,
        (primaryLookupViaMatchEquivalent demoEnv
          ⟨TokenKind.identifier, "x"⟩ none []).2)) :=
  C5_amended_identifier_lookup_uses_matchEquivalent demoEnv 0
    ⟨TokenKind.identifier, "x"⟩ none [] rfl

/-- Amended claim C7: for every Primary expression whose token kind is
Integer, resolveSymbols returns it unchanged — no declaration is bound (the
source returns before any lookup for non-Identifier tokens), so a
declaration like x := 3 keeps a null decl_ref on its Primary(Integer). -/
theorem C7_amended_integer_primary_left_unbound (env : Env) (fuel : Nat)
    (tok : Token) (d : Option Nat) (st : St) (h : tok.kind = TokenKind.integer) :
    resolveSymbols env fuel (Expr.primary tok d) st =
      some (Except.ok (Expr.primary tok d, none, st)) := by
  have hk : ¬ tok.kind = TokenKind.freeVariable := by rw [h]; simp
  have hi : tok.kind ≠ TokenKind.identifier := by rw [h]; simp
  rw [resolveSymbols.eq_def]
  simp [hk, hi]

/-- Witness for the amended C7 at the literal 3. -/
theorem C7_witness :
    resolveSymbols demoEnv 0 (Expr.primary ⟨TokenKind.integer, "3"⟩ none) [] =
      some (Except.ok (Expr.primary ⟨TokenKind.integer, "3"⟩ none, none, [])) :=
  C7_amended_integer_primary_left_unbound demoEnv 0 ⟨TokenKind.integer, "3"⟩ none [] rfl

/-- Counterexample to claim C7: even under an environment in which every
lookup hits, the Primary(Integer) from x := 3 resolves to itself with a null
decl_ref — it is not bound to the axioms module's integerType (or to any
declaration at all). -/
theorem C7_counterexample :
    resolveExpression demoEnv 1 (Expr.primary ⟨TokenKind.integer, "3"⟩ none) [] =
      some (Except.ok (Expr.primary ⟨TokenKind.integer, "3"⟩ none, [])) := by
  simp [resolveExpression.eq_def, resolveSymbols.eq_def]

/-- Amended claim C8: a Primary of kind FreeVariable whose decl_ref is null
at resolution time makes resolveSymbols throw (std::runtime_error, modelled
as a Fatal result) instead of reporting through the diagnostics sink;
resolution of the remainder of the expression list is aborted, not
continued. -/
theorem C8_amended_unbound_free_variable_is_fatal (env : Env) (fuel : Nat)
    (tok : Token) (st : St) (h : tok.kind = TokenKind.freeVariable) :
    resolveSymbols env fuel (Expr.primary tok none) st =
      some (Except.error Fatal.unboundFreeVariable) ∧
    ∀ rest, resolveExpressions env fuel (Expr.primary tok none :: rest) st =
      some (Except.error Fatal.unboundFreeVariable) := by
  have h1 : resolveSymbols env fuel (Expr.primary tok none) st =
      some (Except.error Fatal.unboundFreeVariable) := by
    rw [resolveSymbols.eq_def]
    simp [h]
  refine ⟨h1, ?_⟩
  intro rest
  have h2 : resolveExpression env fuel (Expr.primary tok none) st =
      some (Except.error Fatal.unboundFreeVariable) := by
    rw [resolveExpression.eq_def, h1]
  rw [resolveExpressions.eq_def]
  simp [h2]

/-- Witness for the amended C8 at a concrete free variable. -/
theorem C8_witness :
    resolveSymbols demoEnv 1 (Expr.primary ⟨TokenKind.freeVariable, "x"⟩ none) [] =
      some (Except.error Fatal.unboundFreeVariable) :=
  (C8_amended_unbound_free_variable_is_fatal demoEnv 1
    ⟨TokenKind.freeVariable, "x"⟩ [] rfl).1

/-- Counterexample to claim C8: resolving the expression list [unbound free
variable, identifier] aborts with a thrown error: no UnboundFreeVariable
diagnostic is appended to the sink and the second expression is never
resolved, so resolution does not continue on the remainder of the AST. -/
theorem C8_counterexample :
    resolveExpressions demoEnv 1
      [Expr.primary ⟨TokenKind.freeVariable, "x"⟩ none,
       Expr.primary ⟨TokenKind.identifier, "y"⟩ none] [] =
      some (Except.error Fatal.unboundFreeVariable) := by
  simp [resolveExpressions.eq_def, resolveExpression.eq_def, resolveSymbols.eq_def]


/-- Claim C10: copy-constructing a Symbol (and copy assignment, which is
copy-and-swap over the copy constructor) keeps only the identifier token:
the copy's parameter and variable lists are empty; only move construction
transfers parameters and variables; and under Symbol::operator== the copy
equals the original exactly when the original's parameter list is empty. -/
theorem C10_symbol_copy_is_shallow (isVar : Nat → Bool) (s : SymbolM) :
    (copySymbol s).identifier = s.identifier ∧
    (copySymbol s).params = [] ∧
    (copySymbol s).vars = [] ∧
    moveSymbol s = s ∧
    (symbolEq isVar (copySymbol s) s = true ↔ s.params = []) := by
  refine ⟨rfl, rfl, rfl, rfl, ?_⟩
  unfold symbolEq copySymbol
  cases hp : s.params with
  | nil => simp [matchEquivalentList]
  | cons e es => simp [matchEquivalentList]

/-- Claim C9 (code bug): DeclarationScope::findSymbol dereferences the
lower_bound position without the end() guard createSymbolSet has: on an
empty set list, or whenever the queried name sorts after every set name,
lower_bound is end() and the read is out of bounds (modelled none).  In
bounds it returns the matching set or null, and createSymbolSet handles the
same inputs safely. -/
theorem C9_findSymbol_dereferences_end :
    findSymbol [] "a" = none ∧
    findSymbol ["a"] "b" = none ∧
    findSymbol ["a", "b"] "b" = some (some 1) ∧
    findSymbol ["b"] "a" = some none ∧
    createSymbolSet [] "a" = (["a"], 0) ∧
    createSymbolSet ["a"] "b" = (["a", "b"], 1) := by
  refine ⟨rfl, ?_, ?_, ?_, rfl, ?_⟩ <;>
    simp [findSymbol, createSymbolSet, lowerBound, String.lt_iff_toList_lt] <;>
    decide

/-- Claim C3 (code bug): SymbolSet::instantiate never appends to
proto.instanceBindings (Symbol.cpp 338-378 pushes only to instantiations and
the owning scope), so the cache scan of a later call — despite the source's
comment "use existing instantiation if it exists" — finds no entry: two
findValue calls with identical (hence element-wise equivalent) binding sets
each clone the prototype, returning distinct instance declarations 100 and
101, and the prototype's instanceBindings list is still empty after both
calls. -/
theorem C3_instantiation_cache_never_hits :
    findValue tableFx stFxC3 [Expr.primary ⟨TokenKind.identifier, "c"⟩ (some 1)] =
      ((some 10, some 100),
       ⟨[⟨[Expr.primary ⟨TokenKind.freeVariable, "T"⟩ (some 2)], 10, symFx, [],
          [100]⟩], [100], 101⟩) ∧
    findValue tableFx
      ⟨[⟨[Expr.primary ⟨TokenKind.freeVariable, "T"⟩ (some 2)], 10, symFx, [],
         [100]⟩], [100], 101⟩
      [Expr.primary ⟨TokenKind.identifier, "c"⟩ (some 1)] =
      ((some 10, some 101),
       ⟨[⟨[Expr.primary ⟨TokenKind.freeVariable, "T"⟩ (some 2)], 10, symFx, [],
          [100, 101]⟩], [100, 101], 102⟩) := by
  constructor <;>
    simp [findValue, findValueAux, matchValueList.eq_def, matchValueExpr.eq_def,
      isSymVarPrim, varIdOf, declOf, isVarDecl, lookupDecl, tableFx, stFxC3, symFx,
      isConcrete, resolveIndirections, instantiate, cacheScan, List.enum]

/-- Amended claim C4: findValue scans the prototypes in order under the
value-match relation and stops at the first match: a non-matching prototype
is skipped; at the first match a concrete prototype returns the prototype
declaration with a null instance; a non-concrete match whose value match
collected any rightBindings also returns the prototype with a null instance
and no state change (this case is absent from the original claim); otherwise
instantiation is attempted with the leftBindings collected by the match. -/
theorem C4_findValue_first_match (t : DeclTable) (st : SetSt) (ps : List Expr)
    (idx : Nat) (e : SymbolTemplate) (rest : List (Nat × SymbolTemplate)) :
    ((matchValueList (isVarDecl t) e.paramlist ps ⟨[], []⟩).1 = false →
      findValueAux t st ps ((idx, e) :: rest) = findValueAux t st ps rest) ∧
    ((matchValueList (isVarDecl t) e.paramlist ps ⟨[], []⟩).1 = true →
      isConcrete t e.sym = true →
      findValueAux t st ps ((idx, e) :: rest) = ((some e.declaration, none), st)) ∧
    ((matchValueList (isVarDecl t) e.paramlist ps ⟨[], []⟩).1 = true →
      isConcrete t e.sym = false →
      (matchValueList (isVarDecl t) e.paramlist ps ⟨[], []⟩).2.rightBindings = [] →
      findValueAux t st ps ((idx, e) :: rest) =
        instantiate t st idx
          (matchValueList (isVarDecl t) e.paramlist ps ⟨[], []⟩).2.leftBindings) ∧
    ((matchValueList (isVarDecl t) e.paramlist ps ⟨[], []⟩).1 = true →
      isConcrete t e.sym = false →
      (matchValueList (isVarDecl t) e.paramlist ps ⟨[], []⟩).2.rightBindings ≠ [] →
      findValueAux t st ps ((idx, e) :: rest) = ((some e.declaration, none), st)) := by
  refine ⟨?_, ?_, ?_, ?_⟩
  · intro h1
    simp [findValueAux, h1]
  · intro h1 h2
    simp [findValueAux, h1, h2]
  · intro h1 h2 h3
    simp [findValueAux, h1, h2, h3, List.isEmpty_iff]
  · intro h1 h2 h3
    simp [findValueAux, h1, h2, h3, List.isEmpty_iff]

/-- Witness for the amended C4: the non-concrete prototype of the C3 fixture
matches with empty rightBindings, so the scan instantiates with the
collected leftBindings. -/
theorem C4_witness :
    findValueAux tableFx stFxC3 [Expr.primary ⟨TokenKind.identifier, "c"⟩ (some 1)]
      [(0, ⟨[Expr.primary ⟨TokenKind.freeVariable, "T"⟩ (some 2)], 10, symFx,
        [], []⟩)] =
      instantiate tableFx stFxC3 0
        (matchValueList (isVarDecl tableFx)
          (SymbolTemplate.paramlist ⟨[Expr.primary ⟨TokenKind.freeVariable, "T"⟩
            (some 2)], 10, symFx, [], []⟩)
          [Expr.primary ⟨TokenKind.identifier, "c"⟩ (some 1)]
          ⟨[], []⟩).2.leftBindings :=
  (C4_findValue_first_match tableFx stFxC3
      [Expr.primary ⟨TokenKind.identifier, "c"⟩ (some 1)] 0
      ⟨[Expr.primary ⟨TokenKind.freeVariable, "T"⟩ (some 2)], 10, symFx, [], []⟩
      []).2.2.1
    (by simp [matchValueList.eq_def, matchValueExpr.eq_def, isSymVarPrim, varIdOf,
      declOf, isVarDecl, lookupDecl, tableFx])
    (by simp [isConcrete, symFx, resolveIndirections, tableFx])
    (by simp [matchValueList.eq_def, matchValueExpr.eq_def, isSymVarPrim, varIdOf,
      declOf, isVarDecl, lookupDecl, tableFx])

/-- Counterexample to claim C4 as stated: a non-concrete prototype whose
first value match collects rightBindings (the query argument is a symbol
variable, the pattern a plain declaration) makes findValue return the
prototype with a null instance and an unchanged state — no instantiation is
attempted, although the claim says every non-concrete first match attempts
instantiation and returns the new or cached instance. -/
theorem C4_counterexample :
    findValue tableFx stFxC4 [Expr.primary ⟨TokenKind.identifier, "q"⟩ (some 2)] =
      ((some 10, none), stFxC4) ∧
    (matchValueList (isVarDecl tableFx)
      [Expr.primary ⟨TokenKind.identifier, "a"⟩ (some 1)]
      [Expr.primary ⟨TokenKind.identifier, "q"⟩ (some 2)] ⟨[], []⟩).1 = true ∧
    (matchValueList (isVarDecl tableFx)
      [Expr.primary ⟨TokenKind.identifier, "a"⟩ (some 1)]
      [Expr.primary ⟨TokenKind.identifier, "q"⟩ (some 2)]
      ⟨[], []⟩).2.rightBindings ≠ [] ∧
    isConcrete tableFx symFx = false := by
  refine ⟨?_, ?_, ?_, ?_⟩ <;>
    simp [findValue, findValueAux, matchValueList.eq_def, matchValueExpr.eq_def,
      isSymVarPrim, varIdOf, declOf, isVarDecl, lookupDecl, tableFx, stFxC4, symFx,
      isConcrete, resolveIndirections, instantiate, cacheScan, List.enum]

/-- Counterexample to claim C5 as stated: over a single symbol set holding
one non-concrete prototype, the source's identifier resolution (which calls
matchEquivalent) binds the prototype declaration 10, while the claim's
matchValue lookup would instantiate and bind the fresh instance 11 — the
two lookups are not the same operation. -/
theorem C5_counterexample :
    resolveSymbols (envOfSet tableFx stFxC5 "x") 0
      (Expr.primary ⟨TokenKind.identifier, "x"⟩ none) [] =
      some (Except.ok (Expr.primary ⟨TokenKind.identifier, "x"⟩ (some 10), none, [])) ∧
    (primaryLookupViaMatchValue (envOfSet tableFx stFxC5 "x")
        ⟨TokenKind.identifier, "x"⟩ none []).1 =
      Expr.primary ⟨TokenKind.identifier, "x"⟩ (some 11) := by
  have hhit : (envOfSet tableFx stFxC5 "x").matchEquivalentHit "x" =
      ⟨true, some 10⟩ := rfl
  have hfv : findValue tableFx stFxC5 [] =
      ((some 10, some 11), ⟨[⟨[], 10, symFx, [], [11]⟩], [11], 12⟩) := by
    simp [findValue, findValueAux, matchValueList.eq_def, isVarDecl, lookupDecl,
      tableFx, stFxC5, symFx, isConcrete, resolveIndirections, instantiate,
      cacheScan, List.enum]
  have hval : (envOfSet tableFx stFxC5 "x").matchValueHit "x" [] =
      ⟨true, some 11⟩ := by
    simp [envOfSet, hitOfTemplateInstance, hfv]
  constructor
  · rw [resolveSymbols.eq_def]
    simp [hhit]
  · simp [primaryLookupViaMatchValue, hval]


theorem countRedef_append (a b : St) :
    countRedef (a ++ b) = countRedef a + countRedef b := by
  simp [countRedef, List.filter_append]

theorem enforce_no_redef :
    (∀ e, countRedef (enforce e) = 0) ∧ (∀ es, countRedef (enforceL es) = 0) := by
  apply enforce.mutual_induct
    (fun e => countRedef (enforce e) = 0)
    (fun es => countRedef (enforceL es) = 0)
  all_goals intros
  all_goals simp_all [enforce, enforceL, countRedef_append, countRedef]
  all_goals split <;> simp [countRedef]

theorem applyAfterChildren_countRedef (env : Env) (es' : List Expr)
    (d : Option Nat) (st : St) :
    countRedef (applyAfterChildren env es' d st).2.2 = countRedef st := by
  unfold applyAfterChildren
  cases es' with
  | nil => rfl
  | cons front args =>
    cases front <;>
      first
      | rfl
      | (simp [countRedef_append, countRedef]; done)
      | (dsimp only
         split_ifs <;>
          first
          | (simp [countRedef_append, countRedef]; done)
          | (split <;>
              first
              | (simp [countRedef_append, countRedef]; done)
              | (split <;> simp [countRedef_append, countRedef])))

theorem symbolAfterChildren_countRedef (env : Env) (ident : Token)
    (es' : List Expr) (d : Option Nat) (st : St) :
    countRedef (symbolAfterChildren env ident es' d st).2.2 = countRedef st := by
  unfold symbolAfterChildren
  dsimp only
  split_ifs with h1
  · split <;> simp [countRedef_append, countRedef]
  · have h2 := enforce_no_redef.2 es'
    simp [countRedef_append, h2]

set_option maxHeartbeats 1600000 in
theorem resolve_countRedef (env : Env) :
    (∀ fuel e st e' st',
        resolveExpression env fuel e st = some (Except.ok (e', st')) →
          countRedef st' = countRedef st) ∧
    (∀ fuel e st e' req st',
        resolveSymbols env fuel e st = some (Except.ok (e', req, st')) →
          countRedef st' = countRedef st) ∧
    (∀ fuel es st es' st',
        resolveExpressions env fuel es st = some (Except.ok (es', st')) →
          countRedef st' = countRedef st) := by
  apply resolveExpression.mutual_induct env
    (fun fuel e st => ∀ e' st',
        resolveExpression env fuel e st = some (Except.ok (e', st')) →
          countRedef st' = countRedef st)
    (fun fuel e st => ∀ e' req st',
        resolveSymbols env fuel e st = some (Except.ok (e', req, st')) →
          countRedef st' = countRedef st)
    (fun fuel es st => ∀ es' st',
        resolveExpressions env fuel es st = some (Except.ok (es', st')) →
          countRedef st' = countRedef st)
  case case1 =>
    intro fuel e st hn _ e' st' hres
    rw [resolveExpression.eq_def, hn] at hres
    simp at hres
  case case2 =>
    intro fuel e st f hf _ e' st' hres
    rw [resolveExpression.eq_def, hf] at hres
    simp at hres
  case case3 =>
    intro fuel e st e1 st1 hok ih e' st' hres
    rw [resolveExpression.eq_def, hok] at hres
    simp only [Option.some.injEq, Except.ok.injEq, Prod.mk.injEq] at hres
    obtain ⟨h1, h2⟩ := hres
    subst h2
    exact ih e1 none st1 hok
  case case4 =>
    intro e st fst r st1 hok _ e' st' hres
    rw [resolveExpression.eq_def, hok] at hres
    simp at hres
  case case5 =>
    intro fuel e st fst r st1 hok hfz ihS ihE e' st' hres
    rw [resolveExpression.eq_def, hok] at hres
    simp only [dif_neg hfz] at hres
    have h1 := ihE e' st' hres
    have h2 := ihS fst (some r) st1 hok
    omega
  case case6 =>
    intro fuel st tok hk e' req st' hres
    rw [resolveSymbols.eq_def] at hres
    simp [hk] at hres
  case case7 =>
    intro fuel st tok d hk hd e' req st' hres
    rw [resolveSymbols.eq_def] at hres
    simp [hk, hd] at hres
    obtain ⟨h1, h2, h3⟩ := hres
    subst h3
    rfl
  case case8 =>
    intro fuel st tok d h1 h2 e' req st' hres
    rw [resolveSymbols.eq_def] at hres
    simp [h1, h2] at hres
    obtain ⟨h3, h4, h5⟩ := hres
    subst h5
    rfl
  case case9 =>
    intro fuel st tok d h1 h2 hit hdecl e' req st' hres
    have hd2 : (env.matchEquivalentHit tok.lexeme).decl = none := hdecl
    rw [resolveSymbols.eq_def] at hres
    simp [h1, h2, hd2] at hres
    obtain ⟨h3, h4, h5⟩ := hres
    subst h5
    split <;> simp [countRedef_append, countRedef]
  case case10 =>
    intro fuel st tok d h1 h2 hit dd hdecl e' req st' hres
    have hd2 : (env.matchEquivalentHit tok.lexeme).decl = some dd := hdecl
    rw [resolveSymbols.eq_def] at hres
    simp [h1, h2, hd2] at hres
    obtain ⟨h3, h4, h5⟩ := hres
    subst h5
    rfl
  case case11 =>
    intro fuel st k es o c hn _ e' req st' hres
    rw [resolveSymbols.eq_def] at hres
    simp [hn] at hres
  case case12 =>
    intro fuel st k es o c f hf _ e' req st' hres
    rw [resolveSymbols.eq_def] at hres
    simp [hf] at hres
  case case13 =>
    intro fuel st k es o c rest' st2 hok ih e' req st' hres
    rw [resolveSymbols.eq_def] at hres
    simp only [hok, Option.some.injEq, Except.ok.injEq, Prod.mk.injEq] at hres
    obtain ⟨h1, h2, h3⟩ := hres
    subst h3
    exact ih rest' st2 hok
  case case14 =>
    intro fuel st es d hn _ e' req st' hres
    rw [resolveSymbols.eq_def] at hres
    simp [hn] at hres
  case case15 =>
    intro fuel st es d f hf _ e' req st' hres
    rw [resolveSymbols.eq_def] at hres
    simp [hf] at hres
  case case16 =>
    intro fuel st es d rest' st2 hok ih e' req st' hres
    rw [resolveSymbols.eq_def] at hres
    simp only [hok, Option.some.injEq, Except.ok.injEq] at hres
    have hc := congrArg (fun p => p.2.2) hres
    simp only at hc
    rw [← hc, applyAfterChildren_countRedef]
    exact ih rest' st2 hok
  case case17 =>
    intro fuel st tok d hk e' req st' hres
    rw [resolveSymbols.eq_def] at hres
    simp [hk] at hres
    obtain ⟨h1, h2, h3⟩ := hres
    subst h3
    rfl
  case case18 =>
    intro fuel st tok d hk tok2 pd rest hn _ e' req st' hres
    rw [resolveSymbols.eq_def] at hres
    simp [hk, hn] at hres
  case case19 =>
    intro fuel st tok d hk tok2 pd rest f hf _ e' req st' hres
    rw [resolveSymbols.eq_def] at hres
    simp [hk, hf] at hres
  case case20 =>
    intro fuel st tok d hk tok2 pd rest rest' st2 hok ih e' req st' hres
    rw [resolveSymbols.eq_def] at hres
    simp only [hk, if_true, reduceIte] at hres
    simp only [hok, Option.some.injEq, Except.ok.injEq] at hres
    have hc := congrArg (fun p => p.2.2) hres
    simp only at hc
    rw [← hc, symbolAfterChildren_countRedef]
    exact ih rest' st2 hok
  case case21 =>
    intro fuel st tok d hk head tail hne e' req st' hres
    cases head with
    | primary t p => exact absurd rfl (hne t p)
    | tuple k2 es2 o2 c2 =>
      rw [resolveSymbols.eq_def] at hres
      simp [hk] at hres
      obtain ⟨h1, h2, h3⟩ := hres
      subst h3
      simp [countRedef_append, countRedef]
    | apply es2 d2 =>
      rw [resolveSymbols.eq_def] at hres
      simp [hk] at hres
      obtain ⟨h1, h2, h3⟩ := hres
      subst h3
      simp [countRedef_append, countRedef]
    | symbolE i2 es2 d2 =>
      rw [resolveSymbols.eq_def] at hres
      simp [hk] at hres
      obtain ⟨h1, h2, h3⟩ := hres
      subst h3
      simp [countRedef_append, countRedef]
    | constraintE a2 b2 =>
      rw [resolveSymbols.eq_def] at hres
      simp [hk] at hres
      obtain ⟨h1, h2, h3⟩ := hres
      subst h3
      simp [countRedef_append, countRedef]
  case case22 =>
    intro fuel st tok es d hk hn _ e' req st' hres
    rw [resolveSymbols.eq_def] at hres
    simp [hk, hn] at hres
  case case23 =>
    intro fuel st tok es d hk f hf _ e' req st' hres
    rw [resolveSymbols.eq_def] at hres
    simp [hk, hf] at hres
  case case24 =>
    intro fuel st tok es d hk rest' st2 hok ih e' req st' hres
    rw [resolveSymbols.eq_def] at hres
    simp only [hk, if_false, reduceIte] at hres
    simp only [hok, Option.some.injEq, Except.ok.injEq] at hres
    have hc := congrArg (fun p => p.2.2) hres
    simp only at hc
    rw [← hc, symbolAfterChildren_countRedef]
    exact ih rest' st2 hok
  case case25 =>
    intro fuel st a b hn _ e' req st' hres
    rw [resolveSymbols.eq_def] at hres
    simp [hn] at hres
  case case26 =>
    intro fuel st a b f hf _ e' req st' hres
    rw [resolveSymbols.eq_def] at hres
    simp [hf] at hres
  case case27 =>
    intro fuel st a b a1 st1 hoka hnb iha ihb e' req st' hres
    rw [resolveSymbols.eq_def] at hres
    simp [hoka, hnb] at hres
  case case28 =>
    intro fuel st a b a1 st1 hoka f hfb iha ihb e' req st' hres
    rw [resolveSymbols.eq_def] at hres
    simp [hoka, hfb] at hres
  case case29 =>
    intro fuel st a b a1 st1 hoka b1 st2 hokb iha ihb e' req st3 hres
    rw [resolveSymbols.eq_def] at hres
    simp only [hoka, hokb, Option.some.injEq, Except.ok.injEq, Prod.mk.injEq] at hres
    obtain ⟨h1, h2, h3⟩ := hres
    subst h3
    have ha := iha a1 st1 hoka
    have hb := ihb b1 st2 hokb
    omega
  case case30 =>
    intro fuel st es' st' hres
    rw [resolveExpressions.eq_def] at hres
    simp only [Option.some.injEq, Except.ok.injEq, Prod.mk.injEq] at hres
    obtain ⟨h1, h2⟩ := hres
    subst h2
    rfl
  case case31 =>
    intro fuel st e es hn _ es' st' hres
    rw [resolveExpressions.eq_def] at hres
    simp [hn] at hres
  case case32 =>
    intro fuel st e es f hf _ es' st' hres
    rw [resolveExpressions.eq_def] at hres
    simp [hf] at hres
  case case33 =>
    intro fuel st e es e1 st1 hok hn ih1 ih3 es' st' hres
    rw [resolveExpressions.eq_def] at hres
    simp [hok, hn] at hres
  case case34 =>
    intro fuel st e es e1 st1 hok f hf ih1 ih3 es' st' hres
    rw [resolveExpressions.eq_def] at hres
    simp [hok, hf] at hres
  case case35 =>
    intro fuel st e es e1 st1 hok rest' st2 hokr ih1 ih3 es' st' hres
    rw [resolveExpressions.eq_def] at hres
    simp only [hok, hokr, Option.some.injEq, Except.ok.injEq, Prod.mk.injEq] at hres
    obtain ⟨h1, h2⟩ := hres
    subst h2
    have h3 := ih1 e1 st1 hok
    have h4 := ih3 rest' st2 hokr
    omega

theorem symbolResolve_countRedef (env : Env) (s : SymbolM) (nextId : Nat) (st : St)
    (s' : SymbolM) (n' : Nat) (st' : St)
    (h : symbolResolve env s nextId st = some (Except.ok (s', n', st'))) :
    countRedef st' = countRedef st := by
  unfold symbolResolve at h
  cases hb : bindFreeVarsL s.vars nextId s.params with
  | error f => simp [hb] at h
  | ok p =>
    obtain ⟨params', vars', n2⟩ := p
    cases hr : resolveExpressions env (nodeCountL params') params' st with
    | none => simp [hb, hr] at h
    | some r =>
      cases r with
      | error f => simp [hb, hr] at h
      | ok p2 =>
        obtain ⟨params'', st2⟩ := p2
        simp only [hb, hr, Option.some.injEq, Except.ok.injEq, Prod.mk.injEq] at h
        obtain ⟨h1, h2, h3⟩ := h
        subst h3
        exact (resolve_countRedef env).2.2 (nodeCountL params') params' st
          params'' st2 hr

/-- Claim C6: a scope with two declarations whose (resolved) symbols are
equivalent — same name and element-wise equivalent parameter lists — emits
exactly one SymbolRedefinition error, citing the prior declaration and the
new one, skips appending the second prototype (the symbol set still holds
only the first), and leaves the first declaration reachable via
findEquivalent. -/
theorem C6_symbol_redefinition (env : Env) (t0 t1 t2 : DeclTable) (d1 d2 : DeclM)
    (n0 : Nat) (st0 : St) (s1 s2 : SymbolM) (n1 n2 : Nat) (st1 st2 : St)
    (h1 : symbolResolve env d1.sym n0 st0 = some (Except.ok (s1, n1, st1)))
    (ht1 : t1 = ⟨t0.decls ++ (s1.vars.drop d1.sym.vars.length).map
      (fun v => (v.id, DeclInfo.symVar v.bound))⟩)
    (h2 : symbolResolve env d2.sym n1 st1 = some (Except.ok (s2, n2, st2)))
    (ht2 : t2 = ⟨t1.decls ++ (s2.vars.drop d2.sym.vars.length).map
      (fun v => (v.id, DeclInfo.symVar v.bound))⟩)
    (hname : s2.identifier.lexeme = s1.identifier.lexeme)
    (hequiv : matchEquivalentList (isVarDecl t2) s1.params s2.params = true)
    (hc0 : countRedef st0 = 0) :
    scopeResolveSymbols env t0 [d1, d2] [] n0 st0 =
      some (Except.ok
        ([⟨s1.identifier.lexeme, [⟨s1.params, d1.declId, s1, [], []⟩]⟩], t2, n2,
         st2 ++ [Err.symbolRedefinition d1.declId d2.declId])) ∧
    countRedef (st2 ++ [Err.symbolRedefinition d1.declId d2.declId]) = 1 ∧
    findEquivalent (isVarDecl t2) [⟨s1.params, d1.declId, s1, [], []⟩] s2.params =
      some d1.declId := by
  subst ht1
  subst ht2
  have hfe : findEquivalent
      (isVarDecl ⟨(⟨t0.decls ++ (s1.vars.drop d1.sym.vars.length).map
        (fun v => (v.id, DeclInfo.symVar v.bound))⟩ : DeclTable).decls ++
        (s2.vars.drop d2.sym.vars.length).map
          (fun v => (v.id, DeclInfo.symVar v.bound))⟩)
      [⟨s1.params, d1.declId, s1, [], []⟩] s2.params = some d1.declId := by
    simp only [findEquivalent, hequiv, if_true]
  have hlt : ¬ (s1.identifier.lexeme < s1.identifier.lexeme) := lt_irrefl _
  refine ⟨?_, ?_, hfe⟩
  · simp only [scopeResolveSymbols, h1]
    simp only [createScopeSet, List.map_nil, lowerBound, List.get?_eq_getElem?]
    simp only [List.getElem?_nil, List.take_nil, List.drop_nil, List.nil_append,
      List.append_nil, List.getElem?_cons_zero]
    simp only [findEquivalent]
    simp only [List.set]
    simp only [h2]
    simp only [List.map_cons, List.map_nil, hname, hlt, if_false]
    simp only [List.getElem?_cons_zero, beq_self_eq_true, if_true, reduceIte]
    simp only [hfe]
  · have hcr2 := symbolResolve_countRedef env d2.sym n1 st1 s2 n2 st2 h2
    have hcr1 := symbolResolve_countRedef env d1.sym n0 st0 s1 n1 st1 h1
    have := countRedef_append st2 [Err.symbolRedefinition d1.declId d2.declId]
    have hone : countRedef [Err.symbolRedefinition d1.declId d2.declId] = 1 := by
      simp [countRedef]
    omega

/-- Witness for C6: two declarations named w with empty parameter lists in
one scope; the scan reports one redefinition citing ids 21 and 22 and keeps
only the first prototype. -/
theorem C6_witness :
    (scopeResolveSymbols demoEnv ⟨[]⟩ [⟨21, symW⟩, ⟨22, symW⟩] [] 50 [] =
      some (Except.ok
        ([⟨symW.identifier.lexeme, [⟨symW.params, 21, symW, [], []⟩]⟩], ⟨[]⟩, 50,
         [] ++ [Err.symbolRedefinition 21 22]))) ∧
    countRedef ([] ++ [Err.symbolRedefinition 21 22]) = 1 ∧
    findEquivalent (isVarDecl ⟨[]⟩) [⟨symW.params, 21, symW, [], []⟩] symW.params =
      some 21 :=
  C6_symbol_redefinition demoEnv ⟨[]⟩ ⟨[]⟩ ⟨[]⟩ ⟨21, symW⟩ ⟨22, symW⟩ 50 [] symW symW
    50 50 [] []
    (by simp [symbolResolve, bindFreeVarsL, resolveExpressions.eq_def, symW,
      nodeCountL])
    (by simp [symW])
    (by simp [symbolResolve, bindFreeVarsL, resolveExpressions.eq_def, symW,
      nodeCountL])
    (by simp [symW])
    rfl rfl rfl

end Kyfoo
